import Mathlib

/-!
Verification of the connection core of Media-Communications-Mesh.

The development shallowly embeds the RDMA connection lifecycle of the
media proxy: the connection state machine (`State`, `Result`, the
lifecycle operations), the RDMA establish flow with its fabric
interactions (device init, endpoint init, memory registration,
endpoint destruction), the buffer-pool initialisation, the transmit
path, the completion-queue worker parameters, and the
`ST2110_20Tx::configure` routine.

Sources:
* `src/media-proxy/include/mesh/conn_rdma.h` — the constants
  `RDMA_DEFAULT_TIMEOUT`, `MAX_BUFFER_SIZE`, `CQ_BATCH_SIZE`,
  `PAGE_SIZE`, and the declarations of the `Rdma` class.
* `ST2110_20Tx::configure` (same file, second document) — embedded
  verbatim as `st2110_20tx_configure`.
* `src/unnamed/part_000` — the RdmaRx unit tests, which pin the
  observable behaviour of `configure`/`establish`/`suspend`/`resume`/
  `shutdown` on the mocked fabric.
* `src/unnamed/part_001` — the RDMA test harness (caller of
  `transmit`).

The bodies of `Connection::establish`, `Rdma::on_establish`,
`Rdma::configure`, `Rdma::shutdown_rdma`, `RdmaTx::transmit` and
`Rdma::init_queue_with_elements` are not part of the given sources;
where a definition models such a body, its doc comment starts with
"Modelled from the spec:" and the behaviour is checked against the
unit tests wherever the tests pin it.
-/

/-- `RDMA_DEFAULT_TIMEOUT` from `conn_rdma.h`: default completion-queue
poll timeout in milliseconds. -/
def RDMA_DEFAULT_TIMEOUT : Nat := 1

/-- `MAX_BUFFER_SIZE` from `conn_rdma.h`: `1 << 30` bytes. -/
def MAX_BUFFER_SIZE : Nat := 2 ^ 30

/-- `CQ_BATCH_SIZE` from `conn_rdma.h`: maximum number of completion
events read from the completion queue in one batch. -/
def CQ_BATCH_SIZE : Nat := 64

/-- `PAGE_SIZE` from `conn_rdma.h`. -/
def PAGE_SIZE : Nat := 4096

/-- Connection lifecycle states (`connection::State`). -/
inductive State where
  | not_configured
  | configured
  | active
  | suspended
  | closed
deriving DecidableEq, Repr

/-- Connection operation results (`connection::Result`), following the
error taxonomy of the spec and the names used by the tests and the
harness (`error_wrong_state`, `error_already_initialized`, ...). -/
inductive Result where
  | success
  | error_bad_argument
  | error_wrong_state
  | error_already_initialized
  | error_initialization_failed
  | error_memory_registration_failed
  | error_no_buffer
  | error_cancelled
  | error_conn_closed
  | error_fabric
deriving DecidableEq, Repr

/-- Connection kind (`connection::Kind`). -/
inductive Kind where
  | transmitter
  | receiver
deriving DecidableEq, Repr

/-- The fabric mock, as set up by the unit tests in
`src/unnamed/part_000`: outcome of `rdma_init`, outcome of `ep_init`,
and the outcome of the i-th `ep_reg_mr` (memory registration) call. -/
structure Fabric where
  rdma_init_ok : Bool
  ep_init_ok : Bool
  ep_reg_mr_ok : Nat → Bool

/-- A fabric on which every operation succeeds (the mocks of
`RdmaRxTest.EstablishSuccess`). -/
def allOkFabric : Fabric :=
  { rdma_init_ok := true, ep_init_ok := true, ep_reg_mr_ok := fun _ => true }

/-- Observable fabric interactions of one `establish` call: how many
`ep_reg_mr` calls were made and how many `ep_destroy` calls were made. -/
structure EstablishTrace where
  reg_mr_calls : Nat
  ep_destroy_calls : Nat
deriving DecidableEq, Repr

/-- The state of an `Rdma` connection relevant to the lifecycle:
current lifecycle state, configured transfer size (`trx_sz`), number
of buffers (`queue_size`), and the `init` flag from `conn_rdma.h`. -/
structure RdmaState where
  state : State
  trx_sz : Nat
  queue_size : Nat
  init : Bool
deriving DecidableEq, Repr

/-- A freshly constructed `Rdma` connection: state `not_configured`,
nothing initialised. -/
def freshRdma : RdmaState :=
  { state := State.not_configured, trx_sz := 0, queue_size := 0, init := false }

/-- Modelled from the spec: `Rdma::configure` (body not among the given
sources; validation bounds from §3/§6/§8 of the spec and the
`MAX_BUFFER_SIZE` constant of `conn_rdma.h`). Legal only in
`not_configured`; rejects `transfer_size = 0`, `transfer_size >
MAX_BUFFER_SIZE`, and a queue depth outside `[1, 1024]` with
`bad_argument`; on success stores the sizes and moves to
`configured`. -/
def rdma_configure (c : RdmaState) (transfer_size queue_size : Nat) :
    RdmaState × Result :=
  if c.state ≠ State.not_configured then
    (c, Result.error_wrong_state)
  else if transfer_size = 0 ∨ transfer_size > MAX_BUFFER_SIZE then
    (c, Result.error_bad_argument)
  else if queue_size = 0 ∨ queue_size > 1024 then
    (c, Result.error_bad_argument)
  else
    ({ c with state := State.configured, trx_sz := transfer_size,
              queue_size := queue_size },
     Result.success)

/-- The memory-registration loop of buffer-pool setup: registers the
buffers starting at index `i`, `n` of them remaining; returns the
number of `ep_reg_mr` calls actually made and whether all of them
succeeded (the loop stops at the first failing registration). -/
def register_buffers (ok : Nat → Bool) : Nat → Nat → Nat × Bool
  | _, 0 => (0, true)
  | i, n + 1 =>
    if ok i then
      let r := register_buffers ok (i + 1) n
      (r.1 + 1, r.2)
    else
      (1, false)

/-- Modelled from the spec: `Rdma::on_establish` (body not among the
given sources). Per spec §4.3-§4.5 and the unit tests: device init and
endpoint init first — failure gives `error_initialization_failed` and
state `closed` with no registration calls; then each buffer of the
pool is registered — the first failing registration rolls back with
exactly one `ep_destroy`, gives `error_memory_registration_failed`
and state `closed`; on success the state becomes `active`. -/
def rdma_on_establish (fab : Fabric) (c : RdmaState) :
    RdmaState × Result × EstablishTrace :=
  if fab.rdma_init_ok = false then
    ({ c with state := State.closed }, Result.error_initialization_failed,
     { reg_mr_calls := 0, ep_destroy_calls := 0 })
  else if fab.ep_init_ok = false then
    ({ c with state := State.closed }, Result.error_initialization_failed,
     { reg_mr_calls := 0, ep_destroy_calls := 0 })
  else
    let r := register_buffers fab.ep_reg_mr_ok 0 c.queue_size
    if r.2 then
      ({ c with state := State.active, init := true }, Result.success,
       { reg_mr_calls := r.1, ep_destroy_calls := 0 })
    else
      ({ c with state := State.closed }, Result.error_memory_registration_failed,
       { reg_mr_calls := r.1, ep_destroy_calls := 1 })

/-- Modelled from the spec: `Connection::establish` (body not among the
given sources). The guard is pinned by the unit test
`RdmaRxTest.EstablishAlreadyInitialized`: `establish` is legal only in
state `configured`, and in any other state (including `active` after a
successful establish) it returns `error_wrong_state` and leaves the
connection unchanged. In `configured` it runs `on_establish`. -/
def establish (fab : Fabric) (c : RdmaState) :
    RdmaState × Result × EstablishTrace :=
  if c.state = State.configured then
    rdma_on_establish fab c
  else
    (c, Result.error_wrong_state, { reg_mr_calls := 0, ep_destroy_calls := 0 })

/-- Modelled from the spec: `Connection::suspend` — legal in `active`,
moves to `suspended`; otherwise `error_wrong_state`. Pinned by
`RdmaRxTest.ValidateStateTransitions`. -/
def suspend (c : RdmaState) : RdmaState × Result :=
  if c.state = State.active then
    ({ c with state := State.suspended }, Result.success)
  else
    (c, Result.error_wrong_state)

/-- Modelled from the spec: `Connection::resume` — legal in `suspended`,
moves back to `active`; otherwise `error_wrong_state`. Pinned by
`RdmaRxTest.ValidateStateTransitions`. -/
def resume (c : RdmaState) : RdmaState × Result :=
  if c.state = State.suspended then
    ({ c with state := State.active }, Result.success)
  else
    (c, Result.error_wrong_state)

/-- Modelled from the spec: `Connection::shutdown` /
`Rdma::shutdown_rdma` (body not among the given sources). Per spec
§4.3 and invariant 3 of §8: callable in any state, always returns
`success`, releases resources and leaves the connection `closed`. -/
def shutdown (c : RdmaState) : RdmaState × Result :=
  ({ c with state := State.closed, init := false }, Result.success)

/-- Rounds a buffer size up to a whole number of pages, as buffer-pool
allocation does (`S` rounded up to a page). -/
def roundUpToPage (s : Nat) : Nat :=
  ((s + PAGE_SIZE - 1) / PAGE_SIZE) * PAGE_SIZE

/-- The buffer pool built by `Rdma::init_queue_with_elements`: the base
address and size of the single contiguous block, the per-buffer
(page-rounded) size, the addresses registered with the fabric, and the
free FIFO (`buffer_queue` in `conn_rdma.h`). -/
structure BufferPool where
  block_addr : Nat
  block_size : Nat
  elem_size : Nat
  registered : List Nat
  free_fifo : List Nat
deriving DecidableEq, Repr

/-- Modelled from the spec: `Rdma::init_queue_with_elements(capacity,
trx_sz)` (body not among the given sources; only declared in
`conn_rdma.h`). `base` is the page-aligned address returned by the
allocator. One contiguous block of `capacity` buffers of
`roundUpToPage trx_sz` bytes each is carved into `capacity` buffers at
consecutive offsets; each is registered with the fabric and enqueued
into the free FIFO. -/
def init_queue_with_elements (base capacity trx_sz : Nat) : BufferPool :=
  let s := roundUpToPage trx_sz
  let bufs := (List.range capacity).map (fun i => base + i * s)
  { block_addr := base, block_size := capacity * s, elem_size := s,
    registered := bufs, free_fifo := bufs }

/-- The state of an RDMA transmitter visible to `transmit`: the
configured transfer size, the free-buffer FIFO (buffer ids), the
posted sends (buffer id together with the bytes copied into it), and
the number of completions reaped so far by the CQ worker. -/
structure TxConn where
  transfer_size : Nat
  free_queue : List Nat
  posted : List (Nat × List Nat)
  completions_reaped : Nat
deriving DecidableEq, Repr

/-- Modelled from the spec: `RdmaTx::transmit(ctx, ptr, sz)` (body not
among the given sources; called by
`EmulatedTransmitter::transmit_plaintext` in `src/unnamed/part_001`).
Per spec §4.6: `len > transfer_size` is rejected with `bad_argument`
before any side effect; otherwise a buffer is acquired from the free
FIFO, exactly `len` bytes are copied from the source into it, and the
buffer is posted as a send. The call returns as soon as the post is
accepted: the returned state has the buffer outstanding (posted, not
back in the free FIFO) and no completion has been consumed. An empty
free FIFO blocks; the blocked outcome is modelled as `error_cancelled`
(cancellation is the only exit of the blocking wait in the model). -/
def transmit (c : TxConn) (src : Nat → Nat) (len : Nat) : TxConn × Result :=
  if c.transfer_size < len then
    (c, Result.error_bad_argument)
  else
    match c.free_queue with
    | [] => (c, Result.error_cancelled)
    | b :: rest =>
      ({ c with free_queue := rest,
                posted := c.posted ++ [(b, (List.range len).map src)] },
       Result.success)

/-- Modelled from the spec: `ep_cq_read(ep, events, max, timeout_ms)` —
reads at most `max` completion events of the `pending` available ones;
the timeout only bounds the wait and does not change the count. -/
def cq_read (pending max _timeout_ms : Nat) : Nat :=
  Nat.min pending max

/-- One observed completion-queue poll: how many events the batch
returned and which timeout was passed. -/
structure CqPoll where
  batch : Nat
  timeout_ms : Nat
deriving DecidableEq, Repr

/-- Modelled from the spec: one iteration of the receive-side CQ worker
loop (`Rdma::rdma_cq_thread`, body not among the given sources): it
calls `cq_read` with batch bound `CQ_BATCH_SIZE` and timeout
`RDMA_DEFAULT_TIMEOUT`, the constants of `conn_rdma.h`. -/
def rdma_cq_thread_iteration (pending : Nat) : CqPoll :=
  { batch := cq_read pending CQ_BATCH_SIZE RDMA_DEFAULT_TIMEOUT,
    timeout_ms := RDMA_DEFAULT_TIMEOUT }

/-- The SMPTE ST 2110 transport selectors relevant to
`ST2110_20Tx::configure` (`MESH_CONN_TRANSPORT_ST2110_*`). -/
inductive MeshTransport where
  | st2110_20
  | st2110_22
  | st2110_30
deriving DecidableEq, Repr

/-- The collaborators of `ST2110_20Tx::configure` as oracles: whether
`configure_common` returns nonzero, whether
`mesh_video_format_to_st_format` returns nonzero for the requested
pixel format, and the value computed by `st_frame_size`. -/
structure ST2110Env where
  configure_common_err : Bool
  video_format_err : Bool
  frame_size : Nat
deriving DecidableEq, Repr

/-- The observable fields of an `ST2110_20Tx` connection after
`configure`: the state stored by `set_state`, the result stored by
`set_result`, and the `transfer_size` member. -/
structure ST2110TxConn where
  state : State
  result : Result
  transfer_size : Nat
deriving DecidableEq, Repr

/-- `ST2110_20Tx::configure`, embedded from the source (second document
of `conn_rdma.h`): reject a transport other than ST2110-20, a failing
`configure_common`, an unmappable pixel format, and a zero computed
frame size — each failure path calls `set_state(not_configured)` and
returns `set_result(error_bad_argument)`; the success path stores the
frame size in `transfer_size`, sets state `configured` and returns
`success`. `c` is the connection before the call (its previous state
and transfer size). -/
def st2110_20tx_configure (env : ST2110Env) (transport : MeshTransport)
    (c : ST2110TxConn) : ST2110TxConn :=
  if transport ≠ MeshTransport.st2110_20 then
    { c with state := State.not_configured, result := Result.error_bad_argument }
  else if env.configure_common_err then
    { c with state := State.not_configured, result := Result.error_bad_argument }
  else if env.video_format_err then
    { c with state := State.not_configured, result := Result.error_bad_argument }
  else if env.frame_size = 0 then
    { c with state := State.not_configured, result := Result.error_bad_argument,
             transfer_size := 0 }
  else
    { c with state := State.configured, result := Result.success,
             transfer_size := env.frame_size }

/-! ## Helper lemmas -/

/-- If every registration succeeds, the registration loop makes one
call per buffer and reports success. -/
lemma register_buffers_all_ok (ok : Nat → Bool) (h : ∀ j, ok j = true) :
    ∀ (n i : Nat), register_buffers ok i n = (n, true) := by
  intro n
  induction n with
  | zero => intro i; rfl
  | succ m ih =>
    intro i
    simp [register_buffers, h i, ih (i + 1)]

/-- If the first registration attempted fails, the loop makes exactly
one call and reports failure. -/
lemma register_buffers_first_fail (ok : Nat → Bool) (i n : Nat)
    (hok : ok i = false) (hn : 1 ≤ n) :
    register_buffers ok i n = (1, false) := by
  cases n with
  | zero => omega
  | succ m => simp [register_buffers, hok]

/-- `rdma_configure` succeeds on a fresh connection with in-range
sizes, storing them and moving to `configured`. -/
lemma rdma_configure_success (c : RdmaState) (ts qs : Nat)
    (h0 : c.state = State.not_configured)
    (h1 : ts ≠ 0) (h2 : ts ≤ MAX_BUFFER_SIZE)
    (h3 : qs ≠ 0) (h4 : qs ≤ 1024) :
    rdma_configure c ts qs =
      ({ c with state := State.configured, trx_sz := ts, queue_size := qs },
       Result.success) := by
  have hA : ¬ (ts = 0 ∨ ts > MAX_BUFFER_SIZE) := by
    push_neg
    exact ⟨h1, h2⟩
  have hB : ¬ (qs = 0 ∨ qs > 1024) := by
    push_neg
    exact ⟨h3, h4⟩
  simp [rdma_configure, h0, hA, hB]

/-- On a fabric where device init, endpoint init and every registration
succeed, `establish` from `configured` registers all buffers, destroys
nothing and moves to `active`. -/
lemma establish_all_ok (fab : Fabric) (c : RdmaState)
    (h : c.state = State.configured)
    (hdev : fab.rdma_init_ok = true) (hep : fab.ep_init_ok = true)
    (hreg : ∀ i, fab.ep_reg_mr_ok i = true) :
    establish fab c =
      ({ c with state := State.active, init := true }, Result.success,
       { reg_mr_calls := c.queue_size, ep_destroy_calls := 0 }) := by
  have hr := register_buffers_all_ok fab.ep_reg_mr_ok hreg c.queue_size 0
  simp [establish, rdma_on_establish, h, hdev, hep, hr]

/-- A successful `establish` leaves the connection in state `active`. -/
lemma establish_success_state (fab : Fabric) (c : RdmaState)
    (h : (establish fab c).2.1 = Result.success) :
    (establish fab c).1.state = State.active := by
  by_cases hc : c.state = State.configured
  · cases hdev : fab.rdma_init_ok with
    | false => simp [establish, rdma_on_establish, hc, hdev] at h
    | true =>
      cases hep : fab.ep_init_ok with
      | false => simp [establish, rdma_on_establish, hc, hdev, hep] at h
      | true =>
        cases hr2 : (register_buffers fab.ep_reg_mr_ok 0 c.queue_size).2 with
        | false => simp [establish, rdma_on_establish, hc, hdev, hep, hr2] at h
        | true => simp [establish, rdma_on_establish, hc, hdev, hep, hr2]
  · simp [establish, hc] at h

/-- A connection configured for the standard test scenario
(`transfer_size` 1024, 8 buffers). -/
def configuredDemo : RdmaState :=
  { state := State.configured, trx_sz := 1024, queue_size := 8, init := false }

/-- A fabric whose endpoint init fails
(`RdmaRxTest.EstablishFailureEpInit`). -/
def epInitFailFabric : Fabric :=
  { rdma_init_ok := true, ep_init_ok := false, ep_reg_mr_ok := fun _ => true }

/-- A fabric whose first memory registration fails
(`RdmaRxTest.EstablishFailureBufferAllocation`). -/
def regFailFabric : Fabric :=
  { rdma_init_ok := true, ep_init_ok := true, ep_reg_mr_ok := fun _ => false }

/-! ## Claims -/

/-- C2: if `establish` is called on a configured RDMA connection and
endpoint initialization succeeds but the first memory-registration
call fails, then `establish` returns
`error_memory_registration_failed`, the final state is `closed`, and
`ep_destroy` is invoked exactly once. -/
theorem establish_mem_reg_failure (fab : Fabric) (c : RdmaState)
    (hst : c.state = State.configured)
    (hdev : fab.rdma_init_ok = true)
    (hep : fab.ep_init_ok = true)
    (hreg : fab.ep_reg_mr_ok 0 = false)
    (hq : 1 ≤ c.queue_size) :
    (establish fab c).2.1 = Result.error_memory_registration_failed ∧
    (establish fab c).1.state = State.closed ∧
    (establish fab c).2.2.ep_destroy_calls = 1 := by
  have hr := register_buffers_first_fail fab.ep_reg_mr_ok 0 c.queue_size hreg hq
  simp [establish, rdma_on_establish, hst, hdev, hep, hr]

/-- Witness for C2: the concrete scenario of
`RdmaRxTest.EstablishFailureBufferAllocation`. -/
theorem establish_mem_reg_failure_witness :
    (establish regFailFabric configuredDemo).2.1 =
      Result.error_memory_registration_failed ∧
    (establish regFailFabric configuredDemo).1.state = State.closed ∧
    (establish regFailFabric configuredDemo).2.2.ep_destroy_calls = 1 :=
  establish_mem_reg_failure regFailFabric configuredDemo rfl rfl rfl rfl
    (by decide)

/-- C3: if `establish` is called on a configured RDMA connection and
endpoint initialization fails, then `establish` returns
`error_initialization_failed`, the final state is `closed`, and no
memory-registration call is made. -/
theorem establish_ep_init_failure (fab : Fabric) (c : RdmaState)
    (hst : c.state = State.configured)
    (hdev : fab.rdma_init_ok = true)
    (hep : fab.ep_init_ok = false) :
    (establish fab c).2.1 = Result.error_initialization_failed ∧
    (establish fab c).1.state = State.closed ∧
    (establish fab c).2.2.reg_mr_calls = 0 := by
  simp [establish, rdma_on_establish, hst, hdev, hep]

/-- Witness for C3: the concrete scenario of
`RdmaRxTest.EstablishFailureEpInit`. -/
theorem establish_ep_init_failure_witness :
    (establish epInitFailFabric configuredDemo).2.1 =
      Result.error_initialization_failed ∧
    (establish epInitFailFabric configuredDemo).1.state = State.closed ∧
    (establish epInitFailFabric configuredDemo).2.2.reg_mr_calls = 0 :=
  establish_ep_init_failure epInitFailFabric configuredDemo rfl rfl rfl

/-- C1 counterexample: in the concrete scenario of
`RdmaRxTest.EstablishAlreadyInitialized` (configure with transfer size
1024, establish successfully on the all-success fabric), the second
`establish` does NOT return `error_already_initialized` — the test at
`src/unnamed/part_000:603` asserts `error_wrong_state`. -/
theorem establish_reentry_counterexample :
    (establish allOkFabric
      (establish allOkFabric ((rdma_configure freshRdma 1024 8).1)).1).2.1 ≠
    Result.error_already_initialized := by decide

/-- C1 (amended): for a connection that has been configured and
successfully established (state `active`), a second call to
`establish` returns `error_wrong_state` and the state remains
`active`. -/
theorem establish_reentry_wrong_state (fab : Fabric) (c : RdmaState)
    (h : (establish fab c).2.1 = Result.success) :
    (establish fab (establish fab c).1).2.1 = Result.error_wrong_state ∧
    (establish fab (establish fab c).1).1.state = State.active := by
  have hstate := establish_success_state fab c h
  set c1 := (establish fab c).1 with hc1
  constructor
  · simp [establish, hstate]
  · simp [establish, hstate]

/-- Witness for C1 (amended): the concrete scenario of
`RdmaRxTest.EstablishAlreadyInitialized`. -/
theorem establish_reentry_wrong_state_witness :
    (establish allOkFabric
      (establish allOkFabric ((rdma_configure freshRdma 1024 8).1)).1).2.1 =
      Result.error_wrong_state ∧
    (establish allOkFabric
      (establish allOkFabric ((rdma_configure freshRdma 1024 8).1)).1).1.state =
      State.active :=
  establish_reentry_wrong_state allOkFabric ((rdma_configure freshRdma 1024 8).1)
    (by decide)

/-- C4: starting from a freshly created connection in state
`not_configured`, the sequence `configure`, `establish`, `suspend`,
`resume`, `shutdown` (with in-range sizes, on a fabric where device
init, endpoint init and every registration succeed) returns `success`
at every step and moves the state through `configured`, `active`,
`suspended`, `active`, `closed` respectively. -/
theorem validate_state_transitions (fab : Fabric) (ts qs : Nat)
    (hts0 : ts ≠ 0) (hts1 : ts ≤ MAX_BUFFER_SIZE)
    (hqs0 : qs ≠ 0) (hqs1 : qs ≤ 1024)
    (hdev : fab.rdma_init_ok = true) (hep : fab.ep_init_ok = true)
    (hreg : ∀ i, fab.ep_reg_mr_ok i = true) :
    freshRdma.state = State.not_configured ∧
    (rdma_configure freshRdma ts qs).2 = Result.success ∧
    (rdma_configure freshRdma ts qs).1.state = State.configured ∧
    (establish fab (rdma_configure freshRdma ts qs).1).2.1 = Result.success ∧
    (establish fab (rdma_configure freshRdma ts qs).1).1.state = State.active ∧
    (suspend (establish fab (rdma_configure freshRdma ts qs).1).1).2 =
      Result.success ∧
    (suspend (establish fab (rdma_configure freshRdma ts qs).1).1).1.state =
      State.suspended ∧
    (resume (suspend
      (establish fab (rdma_configure freshRdma ts qs).1).1).1).2 =
      Result.success ∧
    (resume (suspend
      (establish fab (rdma_configure freshRdma ts qs).1).1).1).1.state =
      State.active ∧
    (shutdown (resume (suspend
      (establish fab (rdma_configure freshRdma ts qs).1).1).1).1).2 =
      Result.success ∧
    (shutdown (resume (suspend
      (establish fab (rdma_configure freshRdma ts qs).1).1).1).1).1.state =
      State.closed := by
  have hc := rdma_configure_success freshRdma ts qs rfl hts0 hts1 hqs0 hqs1
  rw [hc]
  have he := establish_all_ok fab
    ({ freshRdma with state := State.configured, trx_sz := ts, queue_size := qs })
    rfl hdev hep hreg
  rw [he]
  simp [suspend, resume, shutdown, freshRdma]

/-- Witness for C4: the concrete scenario of
`RdmaRxTest.ValidateStateTransitions` (1 MiB transfer size) with the
spec default queue depth 32 on the all-success fabric. -/
theorem validate_state_transitions_witness :
    freshRdma.state = State.not_configured ∧
    (rdma_configure freshRdma 1048576 32).2 = Result.success ∧
    (rdma_configure freshRdma 1048576 32).1.state = State.configured ∧
    (establish allOkFabric (rdma_configure freshRdma 1048576 32).1).2.1 =
      Result.success ∧
    (establish allOkFabric (rdma_configure freshRdma 1048576 32).1).1.state =
      State.active ∧
    (suspend (establish allOkFabric
      (rdma_configure freshRdma 1048576 32).1).1).2 = Result.success ∧
    (suspend (establish allOkFabric
      (rdma_configure freshRdma 1048576 32).1).1).1.state = State.suspended ∧
    (resume (suspend (establish allOkFabric
      (rdma_configure freshRdma 1048576 32).1).1).1).2 = Result.success ∧
    (resume (suspend (establish allOkFabric
      (rdma_configure freshRdma 1048576 32).1).1).1).1.state = State.active ∧
    (shutdown (resume (suspend (establish allOkFabric
      (rdma_configure freshRdma 1048576 32).1).1).1).1).2 = Result.success ∧
    (shutdown (resume (suspend (establish allOkFabric
      (rdma_configure freshRdma 1048576 32).1).1).1).1).1.state = State.closed :=
  validate_state_transitions allOkFabric 1048576 32 (by decide)
    (by norm_num [MAX_BUFFER_SIZE]) (by decide) (by decide) rfl rfl
    (fun _ => rfl)

/-- An established connection in state `active`, used as the concrete
input of idempotence witnesses. -/
def activeDemo : RdmaState :=
  { state := State.active, trx_sz := 1024, queue_size := 8, init := true }

/-- C5: `shutdown` is idempotent — for every connection in any
non-terminal state, calling `shutdown` twice yields `success` on both
calls and leaves the final state `closed`. -/
theorem shutdown_idempotent (c : RdmaState) (_h : c.state ≠ State.closed) :
    (shutdown c).2 = Result.success ∧
    (shutdown c).1.state = State.closed ∧
    (shutdown (shutdown c).1).2 = Result.success ∧
    (shutdown (shutdown c).1).1.state = State.closed := by
  simp [shutdown]

/-- Witness for C5: double shutdown of an active connection. -/
theorem shutdown_idempotent_witness :
    (shutdown activeDemo).2 = Result.success ∧
    (shutdown activeDemo).1.state = State.closed ∧
    (shutdown (shutdown activeDemo).1).2 = Result.success ∧
    (shutdown (shutdown activeDemo).1).1.state = State.closed :=
  shutdown_idempotent activeDemo (by decide)

/-- C6: `configure` rejects an out-of-range transfer size — for every
configuration whose `transfer_size` is 0 or exceeds `2^30` bytes
(`MAX_BUFFER_SIZE`), `configure` on a fresh connection returns
`error_bad_argument` and the connection does not reach state
`configured`. -/
theorem configure_rejects_bad_transfer_size (c : RdmaState) (ts qs : Nat)
    (hst : c.state = State.not_configured)
    (hts : ts = 0 ∨ ts > MAX_BUFFER_SIZE) :
    (rdma_configure c ts qs).2 = Result.error_bad_argument ∧
    (rdma_configure c ts qs).1.state ≠ State.configured := by
  constructor
  · simp [rdma_configure, hst, hts]
  · simp [rdma_configure, hst, hts]

/-- Witness for C6: `transfer_size = 0` on a fresh connection. -/
theorem configure_rejects_bad_transfer_size_witness :
    (rdma_configure freshRdma 0 32).2 = Result.error_bad_argument ∧
    (rdma_configure freshRdma 0 32).1.state ≠ State.configured :=
  configure_rejects_bad_transfer_size freshRdma 0 32 rfl (Or.inl rfl)

/-- A transmitter with transfer size 1024 and two free buffers, used
as a concrete input for the transmit contract. -/
def txDemo : TxConn :=
  { transfer_size := 1024, free_queue := [0, 1], posted := [],
    completions_reaped := 0 }

/-- A concrete source byte oracle for the transmit witness. -/
def srcDemo : Nat → Nat := fun i => i % 256

/-- C7: for every call `transmit(ctx, src_ptr, len)` on an active
transmitter: if `len > transfer_size` the call returns
`error_bad_argument` without posting (the state is unchanged);
otherwise, a buffer is acquired from the free FIFO, exactly `len`
bytes are copied from the source into it, and the buffer is posted as
a send — the call returns with the post accepted but no completion
consumed (the buffer stays outstanding, `completions_reaped` is
untouched). -/
theorem transmit_contract (c : TxConn) (src : Nat → Nat) (len : Nat) :
    (c.transfer_size < len →
      transmit c src len = (c, Result.error_bad_argument)) ∧
    (∀ b rest, len ≤ c.transfer_size → c.free_queue = b :: rest →
      transmit c src len =
        ({ c with free_queue := rest,
                  posted := c.posted ++ [(b, (List.range len).map src)] },
         Result.success) ∧
      ((List.range len).map src).length = len ∧
      (transmit c src len).1.completions_reaped = c.completions_reaped) := by
  constructor
  · intro hlen
    simp [transmit, hlen]
  · intro b rest hlen hfree
    have hnot : ¬ c.transfer_size < len := Nat.not_lt.mpr hlen
    refine ⟨by simp [transmit, hnot, hfree], by simp, ?_⟩
    simp [transmit, hnot, hfree]

/-- Witness for C7: both branches at concrete inputs — an oversized
payload of 2000 bytes is rejected without side effects, and a 5-byte
payload is copied and posted. -/
theorem transmit_contract_witness :
    (transmit txDemo srcDemo 2000 = (txDemo, Result.error_bad_argument)) ∧
    (transmit txDemo srcDemo 5 =
      ({ txDemo with free_queue := [1],
                     posted := txDemo.posted ++
                       [(0, (List.range 5).map srcDemo)] },
       Result.success) ∧
     ((List.range 5).map srcDemo).length = 5 ∧
     (transmit txDemo srcDemo 5).1.completions_reaped =
       txDemo.completions_reaped) :=
  ⟨(transmit_contract txDemo srcDemo 2000).1 (by decide),
   (transmit_contract txDemo srcDemo 5).2 0 [1] (by decide) rfl⟩

/-- C8: buffer-pool initialization with capacity `N` and buffer size
`S` allocates a single contiguous, page-aligned block of `N` times `S`
bytes (`S` rounded up to a page), carves `N` buffers from it at
consecutive offsets, registers each with the fabric, and leaves the
free FIFO holding exactly `N` buffers. Stated for an arbitrary carved
buffer index `i < N`: that buffer sits at offset `i * S'` and fits
inside the block. -/
theorem init_queue_with_elements_spec (base capacity trx_sz i : Nat)
    (hbase : base % PAGE_SIZE = 0) (hi : i < capacity) :
    (init_queue_with_elements base capacity trx_sz).block_size =
      capacity * roundUpToPage trx_sz ∧
    roundUpToPage trx_sz % PAGE_SIZE = 0 ∧
    trx_sz ≤ roundUpToPage trx_sz ∧
    (init_queue_with_elements base capacity trx_sz).block_addr % PAGE_SIZE = 0 ∧
    (init_queue_with_elements base capacity trx_sz).free_fifo.length =
      capacity ∧
    (init_queue_with_elements base capacity trx_sz).registered =
      (init_queue_with_elements base capacity trx_sz).free_fifo ∧
    (init_queue_with_elements base capacity trx_sz).free_fifo[i]? =
      some (base + i * roundUpToPage trx_sz) ∧
    base + i * roundUpToPage trx_sz + roundUpToPage trx_sz ≤
      base + (init_queue_with_elements base capacity trx_sz).block_size := by
  refine ⟨rfl, Nat.mul_mod_left _ _, ?_, hbase, by
    simp [init_queue_with_elements], rfl, ?_, ?_⟩
  · unfold roundUpToPage PAGE_SIZE
    omega
  · simp [init_queue_with_elements, List.getElem?_map, List.getElem?_range, hi]
  · show base + i * roundUpToPage trx_sz + roundUpToPage trx_sz ≤
      base + capacity * roundUpToPage trx_sz
    have h1 : (i + 1) * roundUpToPage trx_sz ≤ capacity * roundUpToPage trx_sz :=
      Nat.mul_le_mul_right _ hi
    have h2 : i * roundUpToPage trx_sz + roundUpToPage trx_sz =
        (i + 1) * roundUpToPage trx_sz := (Nat.succ_mul i _).symm
    omega

/-- Witness for C8: a pool of 8 buffers of 1500 bytes at the
page-aligned base address 4096, looking at buffer index 3. -/
theorem init_queue_with_elements_spec_witness :
    (init_queue_with_elements 4096 8 1500).block_size =
      8 * roundUpToPage 1500 ∧
    roundUpToPage 1500 % PAGE_SIZE = 0 ∧
    1500 ≤ roundUpToPage 1500 ∧
    (init_queue_with_elements 4096 8 1500).block_addr % PAGE_SIZE = 0 ∧
    (init_queue_with_elements 4096 8 1500).free_fifo.length = 8 ∧
    (init_queue_with_elements 4096 8 1500).registered =
      (init_queue_with_elements 4096 8 1500).free_fifo ∧
    (init_queue_with_elements 4096 8 1500).free_fifo[3]? =
      some (4096 + 3 * roundUpToPage 1500) ∧
    4096 + 3 * roundUpToPage 1500 + roundUpToPage 1500 ≤
      4096 + (init_queue_with_elements 4096 8 1500).block_size :=
  init_queue_with_elements_spec 4096 8 1500 3 (by decide) (by decide)

/-- C9: each iteration of the receive-side completion-queue worker
reads the completion queue in a batch of at most `CQ_BATCH_SIZE = 64`
events and uses a poll timeout of `RDMA_DEFAULT_TIMEOUT`, whose value
is 1 millisecond. -/
theorem cq_worker_batch_and_timeout (pending : Nat) :
    (rdma_cq_thread_iteration pending).batch ≤ CQ_BATCH_SIZE ∧
    CQ_BATCH_SIZE = 64 ∧
    (rdma_cq_thread_iteration pending).timeout_ms = RDMA_DEFAULT_TIMEOUT ∧
    RDMA_DEFAULT_TIMEOUT = 1 := by
  refine ⟨?_, rfl, rfl, rfl⟩
  show Nat.min pending CQ_BATCH_SIZE ≤ CQ_BATCH_SIZE
  exact Nat.min_le_right _ _

/-- C10: every failure path of `ST2110_20Tx::configure` (wrong
transport kind, `configure_common` failure, unmappable pixel format,
or zero computed frame size) sets the connection state to
`not_configured` before returning `error_bad_argument` — so a failed
configure never leaves the connection in state `configured`, whatever
state it was in before the call. -/
theorem st2110_configure_failure_resets_state (env : ST2110Env)
    (t : MeshTransport) (c : ST2110TxConn)
    (h : (st2110_20tx_configure env t c).result = Result.error_bad_argument) :
    (st2110_20tx_configure env t c).state = State.not_configured := by
  unfold st2110_20tx_configure at h ⊢
  split_ifs at h ⊢ <;> simp_all

/-- Witness for C10: a previously configured connection fed a wrong
transport kind (ST2110-22) ends in `not_configured`. -/
theorem st2110_configure_failure_resets_state_witness :
    (st2110_20tx_configure
      { configure_common_err := false, video_format_err := false,
        frame_size := 8294400 }
      MeshTransport.st2110_22
      { state := State.configured, result := Result.success,
        transfer_size := 100 }).state = State.not_configured :=
  st2110_configure_failure_resets_state
    { configure_common_err := false, video_format_err := false,
      frame_size := 8294400 }
    MeshTransport.st2110_22
    { state := State.configured, result := Result.success,
      transfer_size := 100 }
    (by decide)
